import Mathlib

/-!
Verification of the dataset-loading core of deeprank-core
(`src/deeprankcore/dataset.py`): the predicate filter, the hdf5 integrity
check, the index builder, and the graph/grid feature assemblers.

Python values are embedded shallowly: hdf5 groups become association lists,
numpy scalars become `Rat`, fallible code returns `Except PyErr`.  External
library functions (`ast.literal_eval`, `str.replace`, `np.hstack`, ...) are
modelled from their documented behaviour, as noted at each definition.
-/

set_option autoImplicit false

namespace DRC

/-- Scalar values stored in the hdf5 files (numpy numeric scalars). -/
abbrev Q := Rat

/-- Python exceptions that the embedded code can raise. -/
inductive PyErr where
  | valueError (msg : String)
  | keyError (msg : String)
  | indexError
  | nameError (msg : String)
  | syntaxError (msg : String)
  | typeError (msg : String)
  | osError (msg : String)
deriving DecidableEq

/-! ## Python string replacement (`str.replace`) -/

/-- One fuel-indexed step list for `str.replace`: scan left to right, replacing
every non-overlapping occurrence of `pat`.  Fuel is the length of the scanned
list; each step consumes at least one character when `pat` is nonempty. -/
def replAux (pat rep : List Char) : Nat → List Char → List Char
  | 0, s => s
  | Nat.succ fuel, s =>
    match s with
    | [] => []
    | c :: rest =>
      if pat.isPrefixOf (c :: rest) then
        rep ++ replAux pat rep fuel ((c :: rest).drop pat.length)
      else
        c :: replAux pat rep fuel rest

/-- Modelled from Python's `str.replace(pat, rep)` (leftmost, non-overlapping,
all occurrences).  The filter code only ever replaces nonempty operator
strings, so the empty-pattern corner of `str.replace` is irrelevant here. -/
def pyReplace (s pat rep : List Char) : List Char :=
  if pat.isEmpty then s else replAux pat rep s.length s

/-! ## `ast.literal_eval` -/

def isDigitCh (c : Char) : Bool := '0' ≤ c && c ≤ '9'

/-- Body of a Python numeric literal: digits with at most one decimal point. -/
def isNumLitCore (s : List Char) : Bool :=
  s.all (fun c => isDigitCh c || c == '.') && s.any isDigitCh &&
    (s.filter (fun c => c == '.')).length ≤ 1

/-- Recogniser for the numeric literals `ast.literal_eval` accepts
(optionally signed int or float literal). -/
def isNumLit (s : List Char) : Bool :=
  match s with
  | '-' :: rest => isNumLitCore rest
  | '+' :: rest => isNumLitCore rest
  | _ => isNumLitCore s

def digitVal (c : Char) : Nat := c.toNat - '0'.toNat

def parseDigits (s : List Char) : Nat :=
  s.foldl (fun a c => a * 10 + digitVal c) 0

def parseNumCore (s : List Char) : Q :=
  let intPart := s.takeWhile (fun c => c ≠ '.')
  let fracPart := (s.dropWhile (fun c => c ≠ '.')).drop 1
  (parseDigits intPart : Q) + (parseDigits fracPart : Q) / ((10 : Q) ^ fracPart.length)

def parseNum : List Char → Q
  | '-' :: rest => - parseNumCore rest
  | '+' :: rest => parseNumCore rest
  | s => parseNumCore s

def trimSpaces (s : List Char) : List Char :=
  (((s.dropWhile (fun c => c = ' ')).reverse).dropWhile (fun c => c = ' ')).reverse

/-- Modelled from Python's `ast.literal_eval` (stdlib): it evaluates only
literal structures (numbers, strings, containers, booleans, `None`).  Of
those, only numeric literals can reach this call site.  A string that parses
to an expression containing a name or a comparison raises `ValueError`
("malformed node or string"); a string that does not parse at all (for the
filter pipeline: one starting with an operator) raises `SyntaxError`.
`literal_eval` never evaluates names, so the `val`/`target_value` text the
filter substitutes in is never bound to the stored scalar. -/
def evalLiteral (s : List Char) : Except PyErr Q :=
  let t := trimSpaces s
  if isNumLit t then .ok (parseNum t)
  else
    match t with
    | c :: _ =>
      if c = '>' || c = '<' || c = '=' || c = '!' then
        .error (.syntaxError "invalid syntax")
      else
        .error (.valueError "malformed node or string")
    | [] => .error (.syntaxError "invalid syntax")

/-- Python float truthiness: nonzero is truthy. -/
def pyTruthy (q : Q) : Bool := q ≠ 0

instance {ε α : Type} [DecidableEq ε] [DecidableEq α] : DecidableEq (Except ε α) := fun
  | .ok a, .ok b =>
    match decEq a b with
    | isTrue h => isTrue (by rw [h])
    | isFalse h => isFalse (fun hc => h (by injection hc))
  | .ok _, .error _ => isFalse (fun hc => Except.noConfusion hc)
  | .error _, .ok _ => isFalse (fun hc => Except.noConfusion hc)
  | .error e, .error f =>
    match decEq e f with
    | isTrue h => isTrue (by rw [h])
    | isFalse h => isFalse (fun hc => h (by injection hc))

/-! ## The predicate filter

`GraphDataset._filter` (dataset.py lines 439-478) and
`GridDataset._filter_targets` (lines 732-772). -/

/-- A value of `self.target_filter[name]`: a string condition, `None`, or any
other Python value (modelled by its repr). -/
inductive Cond where
  | str (s : String)
  | noneV
  | other (r : String)
deriving DecidableEq

/-- Operator list of `GraphDataset._filter` (line 468): `ops = [">", "<", "=="]`. -/
def graphOps : List (List Char) := [">".data, "<".data, "==".data]

/-- Operator list of `GridDataset._filter_targets` (line 758). -/
def gridOps : List (List Char) :=
  [">".data, "<".data, "==".data, "<=".data, ">=".data, "!=".data]

/-- Substitution loop of `_filter`:
`for o in ops: new_cond_vals = new_cond_vals.replace(o, "val" + o)`. -/
def graphSubst (cond : List Char) : List Char :=
  graphOps.foldl (fun acc o => pyReplace acc o ("val".data ++ o)) cond

/-- Substitution loop of `_filter_targets`:
`operation = operation.replace(operator_string, "target_value" + operator_string)`. -/
def gridSubst (cond : List Char) : List Char :=
  gridOps.foldl (fun acc o => pyReplace acc o ("target_value".data ++ o)) cond

/-- Loop body of `GraphDataset._filter` (lines 455-478).  `tvOpt` is the
entry's `targets` group (`none` when the group itself is absent; in that case
both the guarded lookup and the `KeyError` handler's own re-read of
`molgrp[targets.VALUES]` raise `KeyError`).  When the group is present, the
looked-up value is discarded by the code — a missing key is only logged — and
the condition is evaluated regardless. -/
def graphFilterLoop : List (String × Cond) → Option (List (String × Q)) →
    Except PyErr Bool
  | [], _ => .ok true
  | (_, condVals) :: rest, tvOpt =>
    match tvOpt with
    | none => .error (.keyError "targets")
    | some tv =>
      match condVals with
      | .str s =>
        match evalLiteral (graphSubst s.data) with
        | .ok v => if pyTruthy v then graphFilterLoop rest (some tv) else .ok false
        | .error e => .error e
      | _ => .error (.valueError "Conditions not supported")

/-- `GraphDataset._filter`: `None` filter keeps everything. -/
def graphFilter (targetFilter : Option (List (String × Cond)))
    (tvOpt : Option (List (String × Q))) : Except PyErr Bool :=
  match targetFilter with
  | none => .ok true
  | some tf => graphFilterLoop tf tvOpt

/-- Loop body of `GridDataset._filter_targets` (lines 749-772).  A filter
target absent from the entry's `targets` group only logs a warning listing
the available target names and moves on (fail-open); a present target with a
string condition goes through the substitution plus `literal_eval` pipeline;
a present target with a `None` condition is vacuously true; any other
condition type raises `ValueError`. -/
def gridFilterLoop : List (String × Cond) → Option (List (String × Q)) →
    Except PyErr Bool
  | [], _ => .ok true
  | (tname, tcond) :: rest, tvOpt =>
    match tvOpt with
    | none => .error (.keyError "targets")
    | some tv =>
      match tv.lookup tname with
      | some _ =>
        match tcond with
        | .str s =>
          match evalLiteral (gridSubst s.data) with
          | .ok v => if pyTruthy v then gridFilterLoop rest (some tv) else .ok false
          | .error e => .error e
        | .noneV => gridFilterLoop rest (some tv)
        | .other _ => .error (.valueError "Conditions not supported")
      | none => gridFilterLoop rest (some tv)

/-- `GridDataset._filter_targets`: `None` filter keeps everything. -/
def gridFilter (targetFilter : Option (List (String × Cond)))
    (tvOpt : Option (List (String × Q))) : Except PyErr Bool :=
  match targetFilter with
  | none => .ok true
  | some tf => gridFilterLoop tf tvOpt

/-! ## The store model

An hdf5 entry group, restricted to the sub-groups `dataset.py` reads:
`{entry}/node_features`, `{entry}/edge_features` (with its `_index` dataset),
`{entry}/target_values`, `{entry}/clustering/{method}/depth_0, depth_1`, and
the grid variant's `{entry}/mapped_features/{name}/value`. -/

/-- A numpy array stored in the file: 1-D, or 2-D of declared width `k`
(well-formedness below says every row has length `k`, as a numpy shape
guarantees). -/
inductive StoredArray where
  | one (xs : List Q)
  | two (k : Nat) (rows : List (List Q))
deriving DecidableEq

def StoredArray.width : StoredArray → Nat
  | .one _ => 1
  | .two k _ => k

def StoredArray.height : StoredArray → Nat
  | .one xs => xs.length
  | .two _ rows => rows.length

/-- The shape declared by a 2-D `StoredArray` matches its data. -/
def StoredArray.wf : StoredArray → Prop
  | .one _ => True
  | .two k rows => ∀ r ∈ rows, r.length = k

instance : ∀ a : StoredArray, Decidable a.wf
  | .one _ => inferInstanceAs (Decidable True)
  | .two k rows => inferInstanceAs (Decidable (∀ r ∈ rows, r.length = k))

/-- `vals.reshape(-1, 1)` for a 1-D array; identity on 2-D arrays
(dataset.py lines 206-207 and 231-232). -/
def toCols : StoredArray → List (List Q)
  | .one xs => xs.map (fun v => [v])
  | .two _ rows => rows

/-- An integer array as stored under `edges/index` (half-edge pairs are the
rows of a 2-D array; the code also tolerates reading a 1-D array there). -/
inductive IntArray where
  | one (xs : List Int)
  | two (rows : List (List Int))
deriving DecidableEq

/-- The entry's `edges` group: the optional `index` dataset plus the per-edge
feature datasets. -/
structure EdgesGroup where
  index : Option IntArray
  feats : List (String × StoredArray)
deriving DecidableEq

/-- Optional two-level clustering of one method: `depth_0` / `depth_1`. -/
structure ClusterPair where
  depth0 : Option (List Int)
  depth1 : Option (List Int)
deriving DecidableEq

/-- One hdf5 entry group.  `none` for a sub-group means the group is absent
from the file (its h5py lookup raises `KeyError`). -/
structure Entry where
  nodes : List (String × StoredArray)
  edges : Option EdgesGroup
  targetVals : Option (List (String × Q))
  clustering : Option (List (String × ClusterPair))
  gridMapped : List (String × List Q)
deriving DecidableEq

/-- An hdf5 file: openable with its entries in key order, or corrupt
(opening raises). -/
inductive H5File where
  | ok (entries : List (String × Entry))
  | corrupt
deriving DecidableEq

/-- The file system visible to the dataset: path to file contents. -/
abbrev FS := List (String × H5File)

/-- `h5py.File(path, "r")`: raises `OSError` for a missing or corrupt file. -/
def openFile (fs : FS) (path : String) : Except PyErr (List (String × Entry)) :=
  match fs.lookup path with
  | some (.ok entries) => .ok entries
  | some .corrupt => .error (.osError path)
  | none => .error (.osError path)

/-- Group lookup `grp[key]`: `KeyError` when the key is absent. -/
def lookupE {α : Type} (g : List (String × α)) (k : String) : Except PyErr α :=
  match g.lookup k with
  | some v => .ok v
  | none => .error (.keyError k)

/-! ## Feature assembly, graph variant (`GraphDataset.load_one_graph`) -/

/-- The per-feature read loop shared by the node block (dataset.py lines
202-208) and the edge-feature block (lines 227-233): skip names starting with
the metafeature marker, read each remaining array (`KeyError` if absent),
reshape 1-D arrays to column vectors, and collect in specification order. -/
def collectFeats (grp : List (String × StoredArray)) :
    List String → Except PyErr (List (List (List Q)))
  | [] => .ok []
  | f :: fs =>
    if f.front == '_' then collectFeats grp fs
    else
      match grp.lookup f with
      | none => .error (.keyError f)
      | some a => do
        let rest ← collectFeats grp fs
        .ok (toCols a :: rest)

/-- Row `i` of an `np.hstack` result: the `i`-th rows of the blocks,
concatenated. -/
def hstackRows (mats : List (List (List Q))) (n : Nat) : List (List Q) :=
  (List.range n).map (fun i => (mats.map (fun m => m.getD i [])).flatten)

/-- Modelled from `np.hstack` on a tuple of 2-D blocks: raises `ValueError`
on an empty tuple or when the blocks disagree on row count, otherwise
concatenates the blocks row by row. -/
def npHstack (mats : List (List (List Q))) : Except PyErr (List (List Q)) :=
  match mats with
  | [] => .error (.valueError "need at least one array to concatenate")
  | m :: ms =>
    if (m :: ms).all (fun m2 => m2.length == m.length) then
      .ok (hstackRows (m :: ms) m.length)
    else .error (.valueError "all the input array dimensions must match")

/-- Node-feature matrix `x` (dataset.py lines 202-209):
`np.hstack` of the collected per-feature blocks. -/
def loadNodeX (nodeFeatures : List String) (e : Entry) :
    Except PyErr (List (List Q)) := do
  let blocks ← collectFeats e.nodes nodeFeatures
  npHstack blocks

/-- The assembled edge-index tensor: a `2 × k` matrix given by its columns,
or a raw 1-D tensor when the stored index had `ndim != 2`. -/
inductive EdgeIndexT where
  | mat (cols : List (List Int))
  | vec (xs : List Int)
deriving DecidableEq

/-- `edge_index.shape[1]`: `IndexError` on a 1-D tensor. -/
def EdgeIndexT.numCols : EdgeIndexT → Except PyErr Nat
  | .mat cols => .ok cols.length
  | .vec _ => .error .indexError

/-- Edge-index assembly (dataset.py lines 213-220).  `grp[edges]` itself
raises `KeyError` when the group is absent.  For a 2-D stored index the code
computes `np.vstack((ind, np.flip(ind, 1))).T`; the columns of that `2 × 2N`
tensor are the stored rows followed by the stored rows reversed
(`np.flip(·, 1)` reverses each row).  A missing `index` dataset yields the
empty `2 × 0` tensor. -/
def loadEdgeIndex (e : Entry) : Except PyErr EdgeIndexT :=
  match e.edges with
  | none => .error (.keyError "edges")
  | some eg =>
    match eg.index with
    | some (.two rows) => .ok (.mat (rows ++ rows.map List.reverse))
    | some (.one xs) => .ok (.vec xs)
    | none => .ok (.mat [])

/-- Edge-attribute assembly (dataset.py lines 224-240).  When edge features
are requested and the `edges` group exists: collect the feature blocks,
`np.hstack` them, duplicate the rows with `np.vstack((edge_data, edge_data))`
so both directions of each half-edge carry the same values, then apply the
edge-feature transform `eft` elementwise.  Otherwise: a width-0 matrix with
`edge_index.shape[1]` rows. -/
def loadEdgeAttr (eft : Q → Q) (edgeFeatures : Option (List String))
    (e : Entry) (ei : EdgeIndexT) : Except PyErr (List (List Q)) :=
  match edgeFeatures, e.edges with
  | some fs, some eg =>
    if fs.isEmpty then do
      let n ← ei.numCols
      .ok (List.replicate n [])
    else do
      let blocks ← collectFeats eg.feats fs
      let m ← npHstack blocks
      .ok ((m ++ m).map (fun row => row.map eft))
  | _, _ => do
    let n ← ei.numCols
    .ok (List.replicate n [])

/-- The dataset's task kind: `'regress'` or `'classif'`. -/
inductive Task where
  | regress
  | classif
deriving DecidableEq

def taskRepr : Option Task → String
  | some .regress => "regress"
  | some .classif => "classif"
  | none => "None"

/-- Rendering of the available target names inside the missing-target error
message (Python formats the h5py keys view; we render the name list). -/
def renderNames : List String → String
  | [] => ""
  | [n] => n
  | n :: rest => n ++ ", " ++ renderNames rest

/-- The `ValueError` message of dataset.py lines 256-257. -/
def targetMissingMsg (tgt entryName fname : String) (names : List String) :
    String :=
  "Target " ++ tgt ++ " missing in entry " ++ entryName ++ " in file " ++
    fname ++ ", possible targets are " ++ renderNames names ++
    ".\n Use the query class to add more target values to input data."

/-- Target assembly (dataset.py lines 243-257).  `sigLog` stands for the
composite `torch.sigmoid(torch.log(·))` applied by the code.  With no
configured target, `y = None`.  With the target present: apply `sigLog` when
the task is regression and the transform flag is set; raise `ValueError` when
the flag is set but the task is not regression; otherwise return the raw
value.  With the target absent: the code reads `grp[target_values].keys()`
(raising `KeyError` if that group is itself absent) and raises a `ValueError`
naming the target, the entry, the file and the available names. -/
def loadTargetY (sigLog : Q → Q) (task : Option Task) (targetTransform : Bool)
    (target : Option String) (tvOpt : Option (List (String × Q)))
    (entryName fname : String) : Except PyErr (Option Q) :=
  match target with
  | none => .ok none
  | some tgt =>
    match tvOpt with
    | some tv =>
      match tv.lookup tgt with
      | some v =>
        if task = some Task.regress ∧ targetTransform = true then
          .ok (some (sigLog v))
        else if task ≠ some Task.regress ∧ targetTransform = true then
          .error (.valueError ("Task is set to " ++ taskRepr task ++
            ". Please set it to regress to transform the target with a sigmoid."))
        else .ok (some v)
      | none =>
        .error (.valueError (targetMissingMsg tgt entryName fname
          (tv.map Prod.fst)))
    | none => .error (.keyError "target_values")

/-- Cluster assembly (dataset.py lines 263-284): best-effort; every missing
level of the `clustering/{method}/depth_0, depth_1` hierarchy degrades to "no
clustering" with a logged warning, and `depth_0`/`depth_1` are only used when
both are present. -/
def loadClusters (method : Option String) (e : Entry) :
    Option (List Int) × Option (List Int) :=
  match method with
  | none => (none, none)
  | some m =>
    match e.clustering with
    | none => (none, none)
    | some cg =>
      match cg.lookup m with
      | none => (none, none)
      | some cp =>
        match cp.depth0, cp.depth1 with
        | some d0, some d1 => (some d0, some d1)
        | _, _ => (none, none)

/-- The assembled graph sample (the `torch_geometric.data.Data` bundle built
at dataset.py lines 287-293). -/
structure GraphSample where
  x : List (List Q)
  edgeIndex : EdgeIndexT
  edgeAttr : List (List Q)
  y : Option Q
  pos : List (List Q)
  cluster0 : Option (List Int)
  cluster1 : Option (List Int)
  entryNames : List String
deriving DecidableEq

/-- The `GraphDataset` configuration consulted by `load_one_graph`. -/
structure GraphConfig where
  sigLog : Q → Q
  eft : Q → Q
  nodeFeatures : List String
  edgeFeatures : Option (List String)
  target : Option String
  task : Option Task
  targetTransform : Bool
  clusteringMethod : Option String
  transform : Option (GraphSample → GraphSample)

/-- `GraphDataset.load_one_graph` (dataset.py lines 185-299): open the file,
look up the entry, assemble node matrix, edge index, edge attributes, target,
positions and clusters in the order the code does, then apply the optional
user transform. -/
def loadOneGraph (cfg : GraphConfig) (fs : FS) (fname entryName : String) :
    Except PyErr GraphSample := do
  let entries ← openFile fs fname
  let e ← lookupE entries entryName
  let x ← loadNodeX cfg.nodeFeatures e
  let ei ← loadEdgeIndex e
  let attr ← loadEdgeAttr cfg.eft cfg.edgeFeatures e ei
  let y ← loadTargetY cfg.sigLog cfg.task cfg.targetTransform cfg.target
    e.targetVals entryName fname
  let posArr ← lookupE e.nodes "position"
  let c := loadClusters cfg.clusteringMethod e
  let s : GraphSample :=
    { x := x, edgeIndex := ei, edgeAttr := attr, y := y, pos := toCols posArr,
      cluster0 := c.1, cluster1 := c.2, entryNames := [entryName] }
  match cfg.transform with
  | some t => .ok (t s)
  | none => .ok s

/-! ## Feature assembly, grid variant (`GridDataset.load_one_entry`) -/

/-- The assembled grid sample (dataset.py lines 725-730). -/
structure GridSample where
  x : List (List Q)
  y : Q
  entryNames : List String
deriving DecidableEq

/-- The `GridDataset` configuration consulted by `load_one_entry`. -/
structure GridConfig where
  features : List String
  target : Option String

/-- `GridDataset.load_one_entry` (dataset.py lines 709-730): read every
requested mapped-feature value array (no metafeature skip here), then read
the target unconditionally: a `None` target is a `TypeError` (h5py rejects a
`None` key), an absent `target_values` group or target name is a `KeyError`.
-/
def loadOneEntry (cfg : GridConfig) (fs : FS) (path entryName : String) :
    Except PyErr GridSample := do
  let entries ← openFile fs path
  let e ← lookupE entries entryName
  let xs ← cfg.features.mapM (fun f => lookupE e.gridMapped f)
  let tv ← (match e.targetVals with
            | some tv => Except.ok tv
            | none => Except.error (.keyError "target_values"))
  let y ← (match cfg.target with
           | some t => lookupE tv t
           | none => Except.error (.typeError "None is not a valid key"))
  .ok { x := xs, y := y, entryNames := [entryName] }

/-! ## Integrity check (`_check_hdf5_files`, both variants) -/

/-- A file the integrity check flags: unopenable, or openable with zero
entries. -/
def fileIsBad (fs : FS) (p : String) : Bool :=
  match openFile fs p with
  | .ok entries => entries.isEmpty
  | .error _ => true

/-- Python's `list.remove`: drop the first occurrence. -/
def removeFirst : List String → String → List String
  | [], _ => []
  | x :: xs, y => if x = y then xs else x :: removeFirst xs y

/-- `GraphDataset._check_hdf5_files` (dataset.py lines 301-319): collect the
empty and unopenable paths, then drop each from the working list with
`list.remove`. -/
def checkHdf5FilesGraph (fs : FS) (paths : List String) : List String :=
  let removeFile := paths.filter (fileIsBad fs)
  removeFile.foldl removeFirst paths

/-- `GridDataset._check_hdf5_files` (dataset.py lines 574-592): the same
scan, but the removal loop body is `self.hdf5_paths.remove(name)` where
`name` is an undefined variable, so the first iteration raises `NameError`;
only an empty removal list (nothing to drop) avoids it. -/
def checkHdf5FilesGrid (fs : FS) (paths : List String) :
    Except PyErr (List String) :=
  let removeFile := paths.filter (fileIsBad fs)
  match removeFile with
  | [] => .ok paths
  | _ :: _ => .error (.nameError "name is not defined")

/-! ## Index construction (`_create_index_entries`, both variants) -/

/-- The per-file entry-name selection (dataset.py lines 427-430 and 679-682):
native key order without a subset, otherwise the subset order restricted to
the names present in the file. -/
def selectNames (subset : Option (List String)) (keys : List String) :
    List String :=
  match subset with
  | none => keys
  | some s => s.filter (fun i => keys.contains i)

/-- The per-file filter loop of `GraphDataset._create_index_entries` (lines
432-434).  Entries are appended one at a time, and the surrounding
`except Exception` swallows any error, abandoning the rest of the file while
keeping the names already accepted. -/
def indexOneFileGraph (tf : Option (List (String × Cond)))
    (entries : List (String × Entry)) : List String → List String
  | [] => []
  | k :: rest =>
    match entries.lookup k with
    | none => []
    | some e =>
      match graphFilter tf e.targetVals with
      | .ok true => k :: indexOneFileGraph tf entries rest
      | .ok false => indexOneFileGraph tf entries rest
      | .error _ => []

/-- `GraphDataset._create_index_entries` (dataset.py lines 404-437): files in
the order given; an unopenable file is logged and skipped. -/
def createIndexEntriesGraph (fs : FS) (paths : List String)
    (subset : Option (List String)) (tf : Option (List (String × Cond))) :
    List (String × String) :=
  paths.foldl (fun acc p =>
    match openFile fs p with
    | .error _ => acc
    | .ok entries =>
      acc ++ (indexOneFileGraph tf entries
          (selectNames subset (entries.map Prod.fst))).map (fun k => (p, k)))
    []

/-- The per-file filter loop of `GridDataset._create_index_entries` (lines
684-686), same shape as the graph variant but using `_filter_targets`. -/
def indexOneFileGrid (tf : Option (List (String × Cond)))
    (entries : List (String × Entry)) : List String → List String
  | [] => []
  | k :: rest =>
    match entries.lookup k with
    | none => []
    | some e =>
      match gridFilter tf e.targetVals with
      | .ok true => k :: indexOneFileGrid tf entries rest
      | .ok false => indexOneFileGrid tf entries rest
      | .error _ => []

/-- `GridDataset._create_index_entries` (dataset.py lines 656-688). -/
def createIndexEntriesGrid (fs : FS) (paths : List String)
    (subset : Option (List String)) (tf : Option (List (String × Cond))) :
    List (String × String) :=
  paths.foldl (fun acc p =>
    match openFile fs p with
    | .error _ => acc
    | .ok entries =>
      acc ++ (indexOneFileGrid tf entries
          (selectNames subset (entries.map Prod.fst))).map (fun k => (p, k)))
    []

/-! ## Runtime access (`len` / `get`, both variants) -/

/-- Normalisation step of Python list indexing: a negative index counts from
the end. -/
def pyNorm (n : Nat) (i : Int) : Int :=
  if i < 0 then (n : Int) + i else i

/-- Python list indexing `lst[i]`: non-negative indices in range, negative
indices wrap from the end, anything else raises `IndexError`. -/
def pyIndex {α : Type} (l : List α) (i : Int) : Except PyErr α :=
  if h : 0 ≤ pyNorm l.length i ∧ pyNorm l.length i < (l.length : Int) then
    .ok (l.get ⟨(pyNorm l.length i).toNat, by omega⟩)
  else .error .indexError

/-- `GraphDataset.len` (dataset.py lines 165-170). -/
def graphLen (indexEntries : List (String × String)) : Nat :=
  indexEntries.length

/-- `GraphDataset.get` (dataset.py lines 172-183): index into
`self.index_entries`, then assemble that entry. -/
def graphGet (cfg : GraphConfig) (fs : FS)
    (indexEntries : List (String × String)) (i : Int) :
    Except PyErr GraphSample := do
  let p ← pyIndex indexEntries i
  loadOneGraph cfg fs p.1 p.2

/-- `GridDataset.len` (dataset.py lines 690-695). -/
def gridLen (indexEntries : List (String × String)) : Nat :=
  indexEntries.length

/-- `GridDataset.get` (dataset.py lines 697-707). -/
def gridGet (cfg : GridConfig) (fs : FS)
    (indexEntries : List (String × String)) (i : Int) :
    Except PyErr GridSample := do
  let p ← pyIndex indexEntries i
  loadOneEntry cfg fs p.1 p.2

/-! ## Concrete instances used by witnesses and counterexamples -/

/-- Whether an `Except` holds an error. -/
def isErr {ε α : Type} : Except ε α → Bool
  | .error _ => true
  | .ok _ => false

/-- A small well-formed entry: one scalar node feature, positions, one
half-edge, no targets. -/
def entryE1 : Entry :=
  { nodes := [("feat", .one [1]), ("position", .two 3 [[0, 0, 0]])],
    edges := some { index := some (.two [[0, 0]]), feats := [] },
    targetVals := none,
    clustering := none,
    gridMapped := [] }

/-- A file system with one good single-entry file and one empty file. -/
def fsAB : FS := [("good.hdf5", .ok [("e1", entryE1)]), ("empty.hdf5", .ok [])]

/-- The six comparison-operator condition strings of the specification, each
with the literal operand `0.5`. -/
def sixOpConds : List String :=
  ["> 0.5", "< 0.5", "== 0.5", "<= 0.5", ">= 0.5", "!= 0.5"]

/-- An entry with two half-edges and one scalar edge feature, for the edge
symmetrization witness. -/
def entryC5 : Entry :=
  { nodes := [("feat", .one [1, 2, 3]), ("position", .two 3 [[0, 0, 0], [1, 0, 0], [2, 0, 0]])],
    edges := some { index := some (.two [[0, 1], [1, 2]]),
                    feats := [("dist", .one [5, 7])] },
    targetVals := none,
    clustering := none,
    gridMapped := [] }

/-- An entry with a 1-D and a 2-D node feature, for the feature-width
witness. -/
def entryC8 : Entry :=
  { nodes := [("a", .one [1, 2]), ("_m", .one [9, 9]), ("b", .two 2 [[3, 4], [5, 6]]),
              ("position", .two 3 [[0, 0, 0], [1, 0, 0]])],
    edges := some { index := none, feats := [] },
    targetVals := none,
    clustering := none,
    gridMapped := [] }

/-- Feature arrays of `entryC8` by name, for the feature-width witness. -/
def arrC8 (f : String) : StoredArray :=
  if f = "a" then .one [1, 2]
  else if f = "b" then .two 2 [[3, 4], [5, 6]]
  else .one []

/-- A minimal graph configuration under which `entryE1` assembles. -/
def cfgW : GraphConfig :=
  { sigLog := fun x => x, eft := fun x => x, nodeFeatures := ["feat"],
    edgeFeatures := some [], target := none, task := none,
    targetTransform := false, clusteringMethod := none, transform := none }

/-- A minimal grid configuration (no features, no target). -/
def gcfgW : GridConfig := { features := [], target := none }

/-- The sample `load_one_graph` assembles from `entryE1` under `cfgW`. -/
def sampleE1 : GraphSample :=
  { x := [[1]], edgeIndex := .mat [[0, 0], [0, 0]], edgeAttr := [[], []],
    y := none, pos := [[0, 0, 0]], cluster0 := none, cluster1 := none,
    entryNames := ["e1"] }

/-- The per-file index-entry list the spec's subset behaviour predicts: the
subset ids present in the file, in subset order, paired with the path;
nothing for an unopenable file. -/
def subsetIndexGraph (fs : FS) (s : List String) (p : String) :
    List (String × String) :=
  match openFile fs p with
  | .ok entries =>
    (s.filter (fun i => (entries.map Prod.fst).contains i)).map (fun k => (p, k))
  | .error _ => []

/-- Grid-variant counterpart of `subsetIndexGraph`. -/
def subsetIndexGrid (fs : FS) (s : List String) (p : String) :
    List (String × String) :=
  match openFile fs p with
  | .ok entries =>
    (s.filter (fun i => (entries.map Prod.fst).contains i)).map (fun k => (p, k))
  | .error _ => []

/-! ## Supporting lemmas -/

theorem toCols_length (a : StoredArray) : (toCols a).length = a.height := by
  cases a <;> simp [toCols, StoredArray.height]

theorem toCols_getD_length (a : StoredArray) (i : Nat) (hw : a.wf)
    (hi : i < a.height) : ((toCols a).getD i []).length = a.width := by
  cases a with
  | one xs =>
    have hi' : i < xs.length := by simpa [StoredArray.height] using hi
    have hx : xs[i]? = some xs[i] := List.getElem?_eq_getElem hi'
    simp [toCols, StoredArray.width, List.getD_eq_getElem?_getD,
      List.getElem?_map, hx]
  | two k rows =>
    have hi' : i < rows.length := by simpa [StoredArray.height] using hi
    have hx : rows[i]? = some rows[i] := List.getElem?_eq_getElem hi'
    simp only [toCols, StoredArray.width, List.getD_eq_getElem?_getD, hx,
      Option.getD_some]
    exact hw _ (List.getElem_mem hi')

theorem collectFeats_eq (g : List (String × StoredArray)) (fs : List String)
    (A : String → StoredArray)
    (hA : ∀ f ∈ fs, (f.front == '_') = false → g.lookup f = some (A f)) :
    collectFeats g fs
      = .ok ((fs.filter (fun f => !(f.front == '_'))).map (fun f => toCols (A f))) := by
  induction fs with
  | nil => rfl
  | cons f rest ih =>
    have ihr := ih (fun x hx h => hA x (List.mem_cons_of_mem _ hx) h)
    by_cases hm : (f.front == '_') = true
    · simp [collectFeats, hm, List.filter_cons, ihr]
    · have hm' : (f.front == '_') = false := by simpa using hm
      have hl := hA f (List.mem_cons_self _ _) hm'
      simp [collectFeats, hm', hl, List.filter_cons, ihr, Bind.bind, Except.bind]

theorem hstackRows_length (mats : List (List (List Q))) (n : Nat) :
    (hstackRows mats n).length = n := by
  simp [hstackRows]

theorem hstackRows_getElem? (mats : List (List (List Q))) (n i : Nat)
    (hi : i < n) :
    (hstackRows mats n)[i]?
      = some ((mats.map (fun m => m.getD i [])).flatten) := by
  simp [hstackRows, List.getElem?_map, List.getElem?_range hi]

theorem npHstack_ok (b : List (List Q)) (bs : List (List (List Q))) (n : Nat)
    (hall : ∀ m2 ∈ b :: bs, m2.length = n) :
    npHstack (b :: bs) = .ok (hstackRows (b :: bs) n) := by
  have hbn : b.length = n := hall b (List.mem_cons_self _ _)
  have hguard : (b :: bs).all (fun m2 => m2.length == b.length) = true := by
    rw [List.all_eq_true]
    intro m2 hm2
    simp [hall m2 hm2, hbn]
  simp [npHstack, hguard, hbn]
  exact fun x hx => hall x (List.mem_cons_of_mem _ hx)

theorem pyIndex_nat {α : Type} (l : List α) (i : Nat) (h : i < l.length) :
    pyIndex l (i : Int) = .ok (l.get ⟨i, h⟩) := by
  have hn : pyNorm l.length (i : Int) = (i : Int) := by
    unfold pyNorm
    rw [if_neg (by omega)]
  simp only [pyIndex, hn]
  rw [dif_pos ⟨by omega, by omega⟩]
  exact congrArg Except.ok (congrArg l.get (Fin.ext (by simp)))

theorem pyIndex_oob {α : Type} (l : List α) (i : Int)
    (h : (l.length : Int) ≤ i ∨ i < -(l.length : Int)) :
    pyIndex l i = .error .indexError := by
  have hn : ¬(0 ≤ pyNorm l.length i ∧ pyNorm l.length i < (l.length : Int)) := by
    unfold pyNorm
    split_ifs <;> omega
  simp [pyIndex, hn]

theorem pyIndex_negWrap {α : Type} (l : List α) (i : Int)
    (h1 : -(l.length : Int) ≤ i) (h2 : i < 0) :
    pyIndex l i = pyIndex l ((l.length : Int) + i) := by
  have hn1 : pyNorm l.length i = (l.length : Int) + i := by
    unfold pyNorm
    rw [if_pos h2]
  have hn2 : pyNorm l.length ((l.length : Int) + i)
      = (l.length : Int) + i := by
    unfold pyNorm
    rw [if_neg (by omega)]
  simp only [pyIndex, hn1, hn2]

theorem lookup_of_mem_keys {α : Type} (entries : List (String × α)) (k : String)
    (h : k ∈ entries.map Prod.fst) : ∃ v, entries.lookup k = some v := by
  induction entries with
  | nil => simp at h
  | cons hd tl ih =>
    rw [List.map_cons] at h
    by_cases hk : k = hd.1
    · refine ⟨hd.2, ?_⟩
      have hbeq : (k == hd.1) = true := by simp [hk]
      simp [List.lookup, hbeq]
    · have hmem : k ∈ tl.map Prod.fst := by
        rcases List.mem_cons.1 h with heq | hmem
        · exact absurd heq hk
        · exact hmem
      obtain ⟨v, hv⟩ := ih hmem
      refine ⟨v, ?_⟩
      have hbeq : (k == hd.1) = false := by simp [hk]
      simp [List.lookup, hbeq, hv]

theorem indexOneFileGraph_noFilter (entries : List (String × Entry))
    (names : List String)
    (h : ∀ k ∈ names, ∃ v, entries.lookup k = some v) :
    indexOneFileGraph none entries names = names := by
  induction names with
  | nil => rfl
  | cons k rest ih =>
    obtain ⟨v, hv⟩ := h k (List.mem_cons_self _ _)
    simp [indexOneFileGraph, hv, graphFilter,
      ih (fun x hx => h x (List.mem_cons_of_mem _ hx))]

theorem indexOneFileGrid_noFilter (entries : List (String × Entry))
    (names : List String)
    (h : ∀ k ∈ names, ∃ v, entries.lookup k = some v) :
    indexOneFileGrid none entries names = names := by
  induction names with
  | nil => rfl
  | cons k rest ih =>
    obtain ⟨v, hv⟩ := h k (List.mem_cons_self _ _)
    simp [indexOneFileGrid, hv, gridFilter,
      ih (fun x hx => h x (List.mem_cons_of_mem _ hx))]

theorem selectNames_resolves (entries : List (String × Entry)) (s : List String) :
    ∀ k ∈ selectNames (some s) (entries.map Prod.fst),
      ∃ v, entries.lookup k = some v := by
  intro k hk
  have hk' : k ∈ s.filter (fun i => (entries.map Prod.fst).contains i) := hk
  have hcon := (List.mem_filter.1 hk').2
  exact lookup_of_mem_keys entries k (List.elem_iff.1 hcon)

theorem mem_renderNames_infix (names : List String) (nm : String)
    (h : nm ∈ names) : nm.data <:+: (renderNames names).data := by
  induction names with
  | nil => cases h
  | cons hd tl ih =>
    cases tl with
    | nil =>
      have : nm = hd := by simpa using h
      subst this
      simp [renderNames]
    | cons h2 t2 =>
      rcases List.mem_cons.1 h with heq | hmem
      · subst heq
        refine ⟨[], (", " ++ renderNames (h2 :: t2)).data, ?_⟩
        simp [renderNames, String.data_append]
      · obtain ⟨s, u, hsu⟩ := ih hmem
        refine ⟨(hd ++ ", ").data ++ s, u, ?_⟩
        simp [renderNames, String.data_append, List.append_assoc, hsu]

/-! ## Claim theorems -/

/-- **C1** (code_bug evidence).  The predicate filter never succeeds in
evaluating a comparison condition: for each of the six operator forms the
spec lists, both `GraphDataset._filter` and `GridDataset._filter_targets`
raise on an entry whose stored target is present (value 1, so `1 > 0.5`
should keep the entry).  `ast.literal_eval` evaluates only literal
structures, and the substituted text (`"val> 0.5"` / `"target_value> 0.5"`)
contains a name and a comparison, so every string condition raises instead
of comparing the stored value. -/
theorem claimC1_string_conditions_always_raise :
    graphFilterLoop [("x", .str "> 0.5")] (some [("x", 1)])
        = .error (.valueError "malformed node or string")
      ∧ gridFilterLoop [("x", .str "> 0.5")] (some [("x", 1)])
        = .error (.valueError "malformed node or string")
      ∧ ∀ c ∈ sixOpConds,
          isErr (graphFilterLoop [("x", .str c)] (some [("x", 1)])) = true
          ∧ isErr (gridFilterLoop [("x", .str c)] (some [("x", 1)])) = true := by
  decide

/-- **C2** (code_bug evidence).  The graph variant's integrity check drops
empty and unopenable files and keeps the rest, raising nothing; the grid
variant's removal loop (`self.hdf5_paths.remove(name)`, line 592) references
the undefined variable `name`, so the moment any file must be dropped the
check raises `NameError` instead of dropping it. -/
theorem claimC2_grid_integrity_check_raises :
    checkHdf5FilesGraph fsAB ["good.hdf5", "empty.hdf5", "missing.hdf5"]
        = ["good.hdf5"]
      ∧ checkHdf5FilesGrid fsAB ["good.hdf5", "empty.hdf5"]
        = .error (.nameError "name is not defined")
      ∧ checkHdf5FilesGrid fsAB ["good.hdf5"] = .ok ["good.hdf5"] := by
  decide

/-- **C3** (counterexample).  In the graph variant a filter target absent
from the entry's target group is *not* skipped: the condition is still
evaluated, and a string condition raises, so the missing-filter-target case
raises instead of keeping the entry. -/
theorem claimC3_graph_missing_target_raises :
    graphFilterLoop [("a", .str "> 0.5")] (some [("b", 2)])
      = .error (.valueError "malformed node or string") := by
  decide

/-- **C3** (amended).  In the grid variant only: a filter target absent from
the entry's target group is skipped (a warning lists the available names)
and the verdict on the entry is whatever the remaining conditions decide —
the missing-filter-target case itself never rejects and never raises. -/
theorem claimC3_grid_missing_target_skipped
    (tname : String) (c : Cond) (rest : List (String × Cond))
    (tv : List (String × Q)) (h : tv.lookup tname = none) :
    gridFilterLoop ((tname, c) :: rest) (some tv)
      = gridFilterLoop rest (some tv) := by
  simp [gridFilterLoop, h]

theorem claimC3_grid_missing_target_skipped_witness :
    ([("b", (2 : Q))].lookup "a" = none)
      ∧ gridFilterLoop [("a", .str "> 0.5"), ("b", .str "bad")] (some [("b", 2)])
        = gridFilterLoop [("b", .str "bad")] (some [("b", 2)]) :=
  ⟨by decide,
   claimC3_grid_missing_target_skipped "a" (.str "> 0.5") [("b", .str "bad")]
     [("b", 2)] (by decide)⟩

/-- **C4** (counterexample).  A condition of `None` is *not* vacuously true
in the graph variant: `GraphDataset._filter` treats every non-string
condition, `None` included, as unsupported and raises `ValueError`, so the
claimed behaviour fails there. -/
theorem claimC4_graph_none_condition_raises :
    graphFilterLoop [("x", Cond.noneV)] (some [("x", 1)])
      = .error (.valueError "Conditions not supported") := by
  decide

/-- **C4** (amended).  For a filter target present in the entry's target
group: in the grid variant a `None` condition is vacuously true and a
non-string non-`None` condition raises `ValueError`; in the graph variant
every non-string condition — `None` included — raises `ValueError`. -/
theorem claimC4_condition_type_handling
    (n : String) (rest : List (String × Cond)) (tv : List (String × Q))
    (v : Q) (r : String) (h : tv.lookup n = some v) :
    gridFilterLoop ((n, Cond.noneV) :: rest) (some tv)
        = gridFilterLoop rest (some tv)
      ∧ gridFilterLoop ((n, Cond.other r) :: rest) (some tv)
        = .error (.valueError "Conditions not supported")
      ∧ graphFilterLoop ((n, Cond.noneV) :: rest) (some tv)
        = .error (.valueError "Conditions not supported")
      ∧ graphFilterLoop ((n, Cond.other r) :: rest) (some tv)
        = .error (.valueError "Conditions not supported") := by
  refine ⟨?_, ?_, ?_, ?_⟩ <;> simp [gridFilterLoop, graphFilterLoop, h]

/-- **C5** (confirmed).  For an entry whose stored half-edge index is a 2-D
array of `N` pairs: the assembled edge index is the `2 × 2N` tensor whose
columns are the stored pairs followed by their swaps, so it has exactly `2N`
columns (even unless empty) and contains both `(i,j)` and `(j,i)` for every
stored pair; and when edge attributes are assembled, the attribute rows are
the hstacked feature rows duplicated (then transformed elementwise), so the
row attached to column `k` (pair `(i,j)`) equals the row attached to column
`N+k` (pair `(j,i)`). -/
theorem claimC5_edge_symmetrization (e : Entry) (eg : EdgesGroup)
    (rows : List (List Int)) (fs : List String)
    (blocks : List (List (List Q))) (m : List (List Q)) (eft : Q → Q)
    (hE : e.edges = some eg) (hI : eg.index = some (.two rows))
    (hPairs : ∀ r ∈ rows, r.length = 2)
    (hfs : fs ≠ [])
    (hC : collectFeats eg.feats fs = .ok blocks)
    (hH : npHstack blocks = .ok m)
    (hLen : m.length = rows.length) :
    loadEdgeIndex e = .ok (.mat (rows ++ rows.map List.reverse))
      ∧ (rows ++ rows.map List.reverse).length = 2 * rows.length
      ∧ (∀ c ∈ rows ++ rows.map List.reverse, c.length = 2)
      ∧ (∀ i j : Int, [i, j] ∈ rows →
          [i, j] ∈ rows ++ rows.map List.reverse
            ∧ [j, i] ∈ rows ++ rows.map List.reverse)
      ∧ loadEdgeAttr eft (some fs) e (.mat (rows ++ rows.map List.reverse))
          = .ok ((m ++ m).map (fun row => row.map eft))
      ∧ ((m ++ m).map (fun row => row.map eft)).length = 2 * rows.length
      ∧ ∀ k, k < rows.length →
          (rows ++ rows.map List.reverse)[k]? = rows[k]?
            ∧ (rows ++ rows.map List.reverse)[rows.length + k]?
                = (rows[k]?).map List.reverse
            ∧ ((m ++ m).map (fun row => row.map eft))[k]?
                = ((m ++ m).map (fun row => row.map eft))[rows.length + k]? := by
  have hfse : fs.isEmpty = false := by
    cases fs with
    | nil => exact absurd rfl hfs
    | cons a l => rfl
  refine ⟨?_, ?_, ?_, ?_, ?_, ?_, ?_⟩
  · simp [loadEdgeIndex, hE, hI]
  · simp [List.length_append, List.length_map]
    omega
  · intro c hc
    rcases List.mem_append.1 hc with h | h
    · exact hPairs c h
    · obtain ⟨r, hr, rfl⟩ := List.mem_map.1 h
      simpa using hPairs r hr
  · intro i j hij
    refine ⟨List.mem_append.2 (.inl hij), List.mem_append.2 (.inr ?_)⟩
    exact List.mem_map.2 ⟨[i, j], hij, rfl⟩
  · simp [loadEdgeAttr, hE, hfse, hC, hH, Bind.bind, Except.bind]
  · simp [List.length_map, List.length_append]
    omega
  · intro k hk
    have hkm : k < m.length := by omega
    refine ⟨?_, ?_, ?_⟩
    · rw [List.getElem?_append]
      rw [if_pos hk]
    · rw [List.getElem?_append_right (Nat.le_add_right _ _)]
      rw [List.getElem?_map]
      have hidx : rows.length + k - rows.length = k := by omega
      rw [hidx]
    · rw [List.getElem?_map, List.getElem?_map]
      rw [List.getElem?_append, if_pos hkm]
      rw [List.getElem?_append_right (by omega)]
      have hidx : rows.length + k - m.length = k := by omega
      rw [hidx]

theorem claimC5_edge_symmetrization_witness :
    (entryC5.edges = some { index := some (.two [[0, 1], [1, 2]]),
                            feats := [("dist", .one [5, 7])] })
      ∧ (({ index := some (.two [[0, 1], [1, 2]]),
            feats := [("dist", .one [5, 7])] } : EdgesGroup).index
          = some (.two [[0, 1], [1, 2]]))
      ∧ (∀ r ∈ [[(0 : Int), 1], [1, 2]], r.length = 2)
      ∧ (["dist"] ≠ ([] : List String))
      ∧ (collectFeats [("dist", .one [5, 7])] ["dist"]
          = .ok [[[(5 : Q)], [7]]])
      ∧ (npHstack [[[(5 : Q)], [7]]] = .ok [[5], [7]])
      ∧ (([[(5 : Q)], [7]] : List (List Q)).length
          = ([[(0 : Int), 1], [1, 2]] : List (List Int)).length)
      ∧ (loadEdgeIndex entryC5
          = .ok (.mat ([[0, 1], [1, 2]] ++ [[(0 : Int), 1], [1, 2]].map List.reverse))
        ∧ ([[(0 : Int), 1], [1, 2]] ++ [[(0 : Int), 1], [1, 2]].map List.reverse).length
            = 2 * ([[(0 : Int), 1], [1, 2]] : List (List Int)).length
        ∧ (∀ c ∈ [[(0 : Int), 1], [1, 2]] ++ [[(0 : Int), 1], [1, 2]].map List.reverse,
            c.length = 2)
        ∧ (∀ i j : Int, [i, j] ∈ [[(0 : Int), 1], [1, 2]] →
            [i, j] ∈ [[(0 : Int), 1], [1, 2]] ++ [[(0 : Int), 1], [1, 2]].map List.reverse
              ∧ [j, i] ∈ [[(0 : Int), 1], [1, 2]] ++ [[(0 : Int), 1], [1, 2]].map List.reverse)
        ∧ loadEdgeAttr (fun x => x * 2) (some ["dist"]) entryC5
              (.mat ([[0, 1], [1, 2]] ++ [[(0 : Int), 1], [1, 2]].map List.reverse))
            = .ok (([[(5 : Q)], [7]] ++ [[(5 : Q)], [7]]).map (fun row => row.map (fun x => x * 2)))
        ∧ (([[(5 : Q)], [7]] ++ [[(5 : Q)], [7]]).map (fun row => row.map (fun x => x * 2))).length
            = 2 * ([[(0 : Int), 1], [1, 2]] : List (List Int)).length
        ∧ ∀ k, k < ([[(0 : Int), 1], [1, 2]] : List (List Int)).length →
            ([[(0 : Int), 1], [1, 2]] ++ [[(0 : Int), 1], [1, 2]].map List.reverse)[k]?
                = [[(0 : Int), 1], [1, 2]][k]?
              ∧ ([[(0 : Int), 1], [1, 2]] ++ [[(0 : Int), 1], [1, 2]].map List.reverse)[([[(0 : Int), 1], [1, 2]] : List (List Int)).length + k]?
                  = ([[(0 : Int), 1], [1, 2]][k]?).map List.reverse
              ∧ (([[(5 : Q)], [7]] ++ [[(5 : Q)], [7]]).map (fun row => row.map (fun x => x * 2)))[k]?
                  = (([[(5 : Q)], [7]] ++ [[(5 : Q)], [7]]).map (fun row => row.map (fun x => x * 2)))[([[(0 : Int), 1], [1, 2]] : List (List Int)).length + k]?) :=
  ⟨by decide, by decide, by decide, by decide, by decide, by decide, by decide,
   claimC5_edge_symmetrization entryC5
     { index := some (.two [[0, 1], [1, 2]]), feats := [("dist", .one [5, 7])] }
     [[0, 1], [1, 2]] ["dist"] [[[(5 : Q)], [7]]] [[5], [7]] (fun x => x * 2)
     (by decide) (by decide) (by decide) (by decide) (by decide) (by decide)
     (by decide)⟩

/-- **C6** (confirmed).  At access time with the configured target present in
the entry: with the transform flag set, the target value `v` is replaced by
`sigmoid(log(v))` iff the task is regression, and a `ValueError` is raised
iff the task is not regression; with the flag unset the raw value is
returned. -/
theorem claimC6_target_transform_guard (sigLog : Q → Q) (task : Option Task)
    (tv : List (String × Q)) (tgt : String) (v : Q) (en fn : String)
    (hv : tv.lookup tgt = some v) :
    (loadTargetY sigLog task true (some tgt) (some tv) en fn
        = .ok (some (sigLog v)) ↔ task = some Task.regress)
      ∧ ((∃ msg, loadTargetY sigLog task true (some tgt) (some tv) en fn
            = .error (.valueError msg)) ↔ task ≠ some Task.regress)
      ∧ loadTargetY sigLog task false (some tgt) (some tv) en fn
          = .ok (some v) := by
  rcases task with _ | t
  · simp [loadTargetY, hv]
  · cases t <;> simp [loadTargetY, hv]

theorem claimC6_target_transform_guard_witness :
    ([("t", (2 : Q))].lookup "t" = some 2)
      ∧ ((loadTargetY (fun x => x + 1) (some Task.classif) true (some "t")
            (some [("t", 2)]) "E" "F" = .ok (some ((fun x => x + 1) 2))
          ↔ some Task.classif = some Task.regress)
        ∧ ((∃ msg, loadTargetY (fun x => x + 1) (some Task.classif) true
              (some "t") (some [("t", 2)]) "E" "F"
                = .error (.valueError msg))
            ↔ some Task.classif ≠ some Task.regress)
        ∧ loadTargetY (fun x => x + 1) (some Task.classif) false (some "t")
            (some [("t", 2)]) "E" "F" = .ok (some 2)) :=
  ⟨by decide,
   claimC6_target_transform_guard (fun x => x + 1) (some Task.classif)
     [("t", 2)] "t" 2 "E" "F" (by decide)⟩

/-- **C7** (confirmed).  At get time in the graph variant, a configured
target absent from the entry's target group makes assembly fail immediately
with a `ValueError` whose message contains the entry name, the file name and
every target name actually available in that entry. -/
theorem claimC7_missing_target_error (sigLog : Q → Q) (task : Option Task)
    (tt : Bool) (tgt : String) (tv : List (String × Q)) (en fn : String)
    (h : tv.lookup tgt = none) :
    loadTargetY sigLog task tt (some tgt) (some tv) en fn
        = .error (.valueError (targetMissingMsg tgt en fn (tv.map Prod.fst)))
      ∧ en.data <:+: (targetMissingMsg tgt en fn (tv.map Prod.fst)).data
      ∧ fn.data <:+: (targetMissingMsg tgt en fn (tv.map Prod.fst)).data
      ∧ ∀ nm ∈ tv.map Prod.fst,
          nm.data <:+: (targetMissingMsg tgt en fn (tv.map Prod.fst)).data := by
  refine ⟨by simp [loadTargetY, h], ?_, ?_, ?_⟩
  · refine ⟨("Target " ++ tgt ++ " missing in entry ").data,
      (" in file " ++ fn ++ ", possible targets are "
        ++ renderNames (tv.map Prod.fst)
        ++ ".\n Use the query class to add more target values to input data.").data, ?_⟩
    simp [targetMissingMsg, String.data_append, List.append_assoc]
  · refine ⟨("Target " ++ tgt ++ " missing in entry " ++ en ++ " in file ").data,
      (", possible targets are " ++ renderNames (tv.map Prod.fst)
        ++ ".\n Use the query class to add more target values to input data.").data, ?_⟩
    simp [targetMissingMsg, String.data_append, List.append_assoc]
  · intro nm hnm
    have h1 : nm.data <:+: (renderNames (tv.map Prod.fst)).data :=
      mem_renderNames_infix _ _ hnm
    have h2 : (renderNames (tv.map Prod.fst)).data
        <:+: (targetMissingMsg tgt en fn (tv.map Prod.fst)).data := by
      refine ⟨("Target " ++ tgt ++ " missing in entry " ++ en ++ " in file "
          ++ fn ++ ", possible targets are ").data,
        ".\n Use the query class to add more target values to input data.".data, ?_⟩
      simp [targetMissingMsg, String.data_append, List.append_assoc]
    exact h1.trans h2

theorem claimC7_missing_target_error_witness :
    ([("a", (1 : Q)), ("b", 2)].lookup "c" = none)
      ∧ (loadTargetY (fun x => x) none false (some "c")
            (some [("a", (1 : Q)), ("b", 2)]) "E" "F"
          = .error (.valueError (targetMissingMsg "c" "E" "F" ["a", "b"]))
        ∧ "E".data <:+: (targetMissingMsg "c" "E" "F" ["a", "b"]).data
        ∧ "F".data <:+: (targetMissingMsg "c" "E" "F" ["a", "b"]).data
        ∧ ∀ nm ∈ ["a", "b"],
            nm.data <:+: (targetMissingMsg "c" "E" "F" ["a", "b"]).data) :=
  ⟨by decide,
   claimC7_missing_target_error (fun x => x) none false "c"
     [("a", 1), ("b", 2)] "E" "F" (by decide)⟩

/-- **C8** (confirmed).  The node feature matrix has one row per node and its
row width equals the sum of the requested non-metafeature features' native
per-node widths (1 for 1-D arrays, `k` for 2-D arrays of width `k`), with the
per-feature column blocks concatenated in specification order; the node count
`n` only fixes the row count. -/
theorem claimC8_feature_width (e : Entry) (fs : List String)
    (A : String → StoredArray) (n : Nat)
    (hA : ∀ f ∈ fs, (f.front == '_') = false →
      e.nodes.lookup f = some (A f) ∧ (A f).wf ∧ (A f).height = n)
    (hne : ∃ f ∈ fs, (f.front == '_') = false) :
    ∃ mat, loadNodeX fs e = .ok mat
      ∧ mat.length = n
      ∧ (∀ row ∈ mat, row.length
          = ((fs.filter (fun f => !(f.front == '_'))).map
              (fun f => (A f).width)).sum)
      ∧ ∀ i, i < n → mat[i]?
          = some (((fs.filter (fun f => !(f.front == '_'))).map
              (fun f => (toCols (A f)).getD i [])).flatten) := by
  have hcol := collectFeats_eq e.nodes fs A (fun f hf h => (hA f hf h).1)
  obtain ⟨f0, hf0, hf0m⟩ := hne
  have hf0nm : f0 ∈ fs.filter (fun f => !(f.front == '_')) :=
    List.mem_filter.2 ⟨hf0, by simp [hf0m]⟩
  have hall : ∀ m2 ∈ (fs.filter (fun f => !(f.front == '_'))).map
      (fun f => toCols (A f)), m2.length = n := by
    intro m2 hm2
    obtain ⟨f, hfnm, rfl⟩ := List.mem_map.1 hm2
    have hfm := List.mem_filter.1 hfnm
    rw [toCols_length]
    exact (hA f hfm.1 (by simpa using hfm.2)).2.2
  obtain ⟨b, bs, hbbs⟩ : ∃ b bs,
      (fs.filter (fun f => !(f.front == '_'))).map (fun f => toCols (A f))
        = b :: bs := by
    cases hcase : (fs.filter (fun f => !(f.front == '_'))).map
        (fun f => toCols (A f)) with
    | nil =>
      rw [List.map_eq_nil_iff] at hcase
      rw [hcase] at hf0nm
      cases hf0nm
    | cons b bs => exact ⟨b, bs, rfl⟩
  rw [hbbs] at hall
  have hH := npHstack_ok b bs n hall
  rw [← hbbs] at hH
  refine ⟨hstackRows ((fs.filter (fun f => !(f.front == '_'))).map
      (fun f => toCols (A f))) n, ?_, hstackRows_length _ _, ?_, ?_⟩
  · simp [loadNodeX, hcol, hH, Bind.bind, Except.bind]
  · intro row hrow
    simp only [hstackRows, List.mem_map] at hrow
    obtain ⟨i, hi, rfl⟩ := hrow
    have hi' : i < n := List.mem_range.1 hi
    rw [List.length_flatten, List.map_map, List.map_map]
    refine congrArg List.sum (List.map_congr_left ?_)
    intro f hfnm
    have hfm := List.mem_filter.1 hfnm
    obtain ⟨-, hwf, hht⟩ := hA f hfm.1 (by simpa using hfm.2)
    exact toCols_getD_length (A f) i hwf (by omega)
  · intro i hi
    rw [hstackRows_getElem? _ _ _ hi, List.map_map]
    rfl

theorem claimC8_feature_width_witness :
    (∀ f ∈ ["a", "_m", "b"], (f.front == '_') = false →
      entryC8.nodes.lookup f = some (arrC8 f) ∧ (arrC8 f).wf
        ∧ (arrC8 f).height = 2)
      ∧ (∃ f ∈ ["a", "_m", "b"], (f.front == '_') = false)
      ∧ ∃ mat, loadNodeX ["a", "_m", "b"] entryC8 = .ok mat
          ∧ mat.length = 2
          ∧ (∀ row ∈ mat, row.length
              = ((["a", "_m", "b"].filter (fun f => !(f.front == '_'))).map
                  (fun f => (arrC8 f).width)).sum)
          ∧ ∀ i, i < 2 → mat[i]?
              = some (((["a", "_m", "b"].filter (fun f => !(f.front == '_'))).map
                  (fun f => (toCols (arrC8 f)).getD i [])).flatten) :=
  ⟨by decide, by decide,
   claimC8_feature_width entryC8 ["a", "_m", "b"] arrC8 2 (by decide) (by decide)⟩

theorem claimC4_condition_type_handling_witness :
    ([("x", (1 : Q))].lookup "x" = some 1)
      ∧ (gridFilterLoop [("x", Cond.noneV)] (some [("x", 1)])
          = gridFilterLoop [] (some [("x", 1)])
        ∧ gridFilterLoop [("x", Cond.other "0.3")] (some [("x", 1)])
          = .error (.valueError "Conditions not supported")
        ∧ graphFilterLoop [("x", Cond.noneV)] (some [("x", 1)])
          = .error (.valueError "Conditions not supported")
        ∧ graphFilterLoop [("x", Cond.other "0.3")] (some [("x", 1)])
          = .error (.valueError "Conditions not supported")) :=
  ⟨by decide, claimC4_condition_type_handling "x" [] [("x", 1)] 1 "0.3" (by decide)⟩

/-- **C9** (counterexample).  An out-of-range access by the claim's own range
(`0 <= i < length()`) that does not raise: with one index entry, `get(-1)`
returns an assembled sample — Python's negative indexing wraps instead of
failing. -/
theorem claimC9_negative_index_returns_sample :
    graphLen [("good.hdf5", "e1")] = 1
      ∧ graphGet cfgW fsAB [("good.hdf5", "e1")] (-1) = .ok sampleE1 := by
  constructor
  · rfl
  · decide

/-- **C9** (amended).  In both variants `len` is the index-entry count, and
`get(i)` for `0 <= i < len` dispatches to the assembly of the `i`-th index
entry; `get(i)` raises `IndexError` exactly when `i >= len` or `i < -len`,
while `-len <= i < 0` wraps Python-style to entry `len + i` instead of
raising. -/
theorem claimC9_len_get_contract (cfg : GraphConfig) (gcfg : GridConfig)
    (fs : FS) (ie ge : List (String × String)) :
    graphLen ie = ie.length ∧ gridLen ge = ge.length
      ∧ (∀ (i : Nat) (h : i < ie.length),
          graphGet cfg fs ie (i : Int)
            = loadOneGraph cfg fs (ie.get ⟨i, h⟩).1 (ie.get ⟨i, h⟩).2)
      ∧ (∀ i : Int, (ie.length : Int) ≤ i ∨ i < -(ie.length : Int) →
          graphGet cfg fs ie i = .error .indexError)
      ∧ (∀ i : Int, -(ie.length : Int) ≤ i → i < 0 →
          graphGet cfg fs ie i = graphGet cfg fs ie ((ie.length : Int) + i))
      ∧ (∀ (i : Nat) (h : i < ge.length),
          gridGet gcfg fs ge (i : Int)
            = loadOneEntry gcfg fs (ge.get ⟨i, h⟩).1 (ge.get ⟨i, h⟩).2)
      ∧ (∀ i : Int, (ge.length : Int) ≤ i ∨ i < -(ge.length : Int) →
          gridGet gcfg fs ge i = .error .indexError)
      ∧ (∀ i : Int, -(ge.length : Int) ≤ i → i < 0 →
          gridGet gcfg fs ge i = gridGet gcfg fs ge ((ge.length : Int) + i)) := by
  refine ⟨rfl, rfl, ?_, ?_, ?_, ?_, ?_, ?_⟩
  · intro i h
    simp [graphGet, pyIndex_nat ie i h, Bind.bind, Except.bind]
  · intro i h
    simp [graphGet, pyIndex_oob ie i h, Bind.bind, Except.bind]
  · intro i h1 h2
    simp [graphGet, pyIndex_negWrap ie i h1 h2]
  · intro i h
    simp [gridGet, pyIndex_nat ge i h, Bind.bind, Except.bind]
  · intro i h
    simp [gridGet, pyIndex_oob ge i h, Bind.bind, Except.bind]
  · intro i h1 h2
    simp [gridGet, pyIndex_negWrap ge i h1 h2]

theorem claimC9_len_get_contract_witness :
    graphGet cfgW fsAB [("good.hdf5", "e1")] 1 = .error .indexError
      ∧ gridGet gcfgW fsAB [("good.hdf5", "e1")] 2 = .error .indexError :=
  ⟨(claimC9_len_get_contract cfgW gcfgW fsAB [("good.hdf5", "e1")]
      [("good.hdf5", "e1")]).2.2.2.1 1 (by decide),
   (claimC9_len_get_contract cfgW gcfgW fsAB [("good.hdf5", "e1")]
      [("good.hdf5", "e1")]).2.2.2.2.2.2.1 2 (by decide)⟩

/-- **C10** (confirmed).  With a subset supplied (and no target filter), the
index entries of each store file are exactly the subset ids present in that
file, in subset order, paired with that file's path; subset ids absent from a
file contribute nothing and nothing raises, and unopenable files contribute
nothing.  Both dataset variants behave identically. -/
theorem claimC10_subset_order (fs : FS) (paths : List String)
    (s : List String) :
    createIndexEntriesGraph fs paths (some s) none
        = (paths.map (subsetIndexGraph fs s)).flatten
      ∧ createIndexEntriesGrid fs paths (some s) none
        = (paths.map (subsetIndexGrid fs s)).flatten := by
  constructor
  · have main : ∀ (ps : List String) (acc : List (String × String)),
        ps.foldl (fun acc p =>
          match openFile fs p with
          | .error _ => acc
          | .ok entries =>
            acc ++ (indexOneFileGraph none entries
                (selectNames (some s) (entries.map Prod.fst))).map
              (fun k => (p, k))) acc
        = acc ++ (ps.map (subsetIndexGraph fs s)).flatten := by
      intro ps
      induction ps with
      | nil => intro acc; simp
      | cons p pss ih =>
        intro acc
        rw [List.foldl_cons, List.map_cons, List.flatten_cons]
        cases hop : openFile fs p with
        | error e =>
          rw [ih]
          simp [subsetIndexGraph, hop]
        | ok entries =>
          rw [ih]
          have hif := indexOneFileGraph_noFilter entries
            (selectNames (some s) (entries.map Prod.fst))
            (selectNames_resolves entries s)
          simp only [hop]
          rw [hif]
          simp only [subsetIndexGraph, hop, selectNames, List.append_assoc]
    simpa using main paths []
  · have main : ∀ (ps : List String) (acc : List (String × String)),
        ps.foldl (fun acc p =>
          match openFile fs p with
          | .error _ => acc
          | .ok entries =>
            acc ++ (indexOneFileGrid none entries
                (selectNames (some s) (entries.map Prod.fst))).map
              (fun k => (p, k))) acc
        = acc ++ (ps.map (subsetIndexGrid fs s)).flatten := by
      intro ps
      induction ps with
      | nil => intro acc; simp
      | cons p pss ih =>
        intro acc
        rw [List.foldl_cons, List.map_cons, List.flatten_cons]
        cases hop : openFile fs p with
        | error e =>
          rw [ih]
          simp [subsetIndexGrid, hop]
        | ok entries =>
          rw [ih]
          have hif := indexOneFileGrid_noFilter entries
            (selectNames (some s) (entries.map Prod.fst))
            (selectNames_resolves entries s)
          simp only [hop]
          rw [hif]
          simp only [subsetIndexGrid, hop, selectNames, List.append_assoc]
    simpa using main paths []

end DRC
